import Mathlib

/-!
Shallow embedding of the AI study-partner app (src/app.py): the topic
router `is_new_topic`, the stream parser `parse_groq_stream`, the
centralized API caller `get_ai_response`, the planning-form submit
handler, the main chat-input handler, and the reset action.

The external completion provider is modelled by passing the outcome of
each provider call as an explicit argument: `Except Unit String` for the
routing call (error = any raised exception, caught by the bare `except:`
in the source) and `Except Unit (List Chunk)` for the streaming call
(error = any exception caught in `get_ai_response`).
-/

namespace AITutorStudy

/-- The single-quote character, used inside literal strings of the app. -/
def sq : String := (Char.ofNat 39).toString

/-- A chat message: a role tag ("user" / "assistant") and text content. -/
structure Message where
  role : String
  content : String
deriving DecidableEq

/-- The greeting message installed at session start and on reset
(src/app.py lines 90 and 97). -/
def greeting : Message :=
  ⟨"assistant", "Hi! I" ++ sq ++ "m your AI Study Partner. Ask me anything about the reading."⟩

/-- The session state of one conversation: message history plus the
planning flags (src/app.py lines 96-101). -/
structure ConvState where
  messages : List Message
  planning_active : Bool
  pending_question : String
deriving DecidableEq

/-- Initial session state (src/app.py lines 96-101). -/
def initialState : ConvState := ⟨[greeting], false, ""⟩

/-- The Reset Chat button handler (src/app.py lines 89-93): replaces the
history with the single greeting and clears both flags. -/
def reset_chat (_s : ConvState) : ConvState := initialState

/-- A content delta of one streamed choice (`chunk.choices[0].delta.content`),
`none` modelling Python `None`. -/
structure Delta where
  content : Option String
deriving DecidableEq

/-- One choice of a streamed chunk. -/
structure Choice where
  delta : Delta
deriving DecidableEq

/-- One chunk of the provider stream: a (possibly empty) list of choices. -/
structure Chunk where
  choices : List Choice
deriving DecidableEq

/-- The content delta the source reads from a chunk: `none` when
`chunk.choices` is empty (the `if chunk.choices:` guard fails) or when
`choices[0].delta.content` is `None`. -/
def chunkDelta (c : Chunk) : Option String :=
  match c.choices with
  | [] => none
  | ch :: _ => ch.delta.content

/-- `parse_groq_stream` (src/app.py lines 17-22): yields
`chunk.choices[0].delta.content` for every chunk whose choices are
non-empty and whose first delta content is not `None`. -/
def parse_groq_stream (stream : List Chunk) : List String :=
  stream.filterMap chunkDelta

/-- `get_ai_response` (src/app.py lines 25-36): on success
`st.write_stream` returns the concatenation of the yielded fragments;
on any exception the handler shows an error and returns `None`. -/
def get_ai_response (call : Except Unit (List Chunk)) : Option String :=
  match call with
  | .error _ => none
  | .ok stream => some (String.join (parse_groq_stream stream))

/-- Python `str.strip()`: remove whitespace from both ends. -/
def pyStrip (cs : List Char) : List Char :=
  ((cs.dropWhile Char.isWhitespace).reverse.dropWhile Char.isWhitespace).reverse

/-- Python `str.upper()`: character-wise uppercase. -/
def pyUpper (cs : List Char) : List Char := cs.map Char.toUpper

/-- `is_new_topic` (src/app.py lines 39-76): `True` on empty history;
otherwise one provider call, whose returned text is parsed by
`"NEW" in content.strip().upper()`; any exception (modelled by
`Except.error`) yields `True`. The new prompt only feeds the provider
call, which is abstracted by `routerCall`. -/
def is_new_topic (routerCall : Except Unit String) (history : List Message)
    (_new_prompt : String) : Bool :=
  if history.isEmpty then true
  else
    match routerCall with
    | .error _ => true
    | .ok content => decide ((String.toList "NEW") <:+: pyUpper (pyStrip content.toList))

/-- The routing decision of the spec: NEW_TOPIC corresponds to
`is_new_topic = true`. -/
inductive RoutingDecision
  | NEW_TOPIC
  | CONTINUATION
deriving DecidableEq

/-- `classify` of the spec: the routing decision computed by `is_new_topic`. -/
def classify (routerCall : Except Unit String) (history : List Message)
    (new_prompt : String) : RoutingDecision :=
  if is_new_topic routerCall history new_prompt then .NEW_TOPIC else .CONTINUATION

/-- The two run conditions of the sidebar radio (src/app.py line 87). -/
inductive Condition
  | standard
  | planningIntervention
deriving DecidableEq

/-- Observable outcome of one handler run: the new session state, the
`st.error` messages shown, and the message lists sent to the completion
provider for answer generation. -/
structure StepResult where
  state : ConvState
  errors : List String
  sent : List (List Message)
deriving DecidableEq

/-- The error message shown by `get_ai_response` on a provider exception
(the exception text itself is elided). -/
def apiError : String := "API Error"

/-- The shared answer branch of the main handler (src/app.py lines
176-179 and 182-185): call `get_ai_response` on the full history and
append the assistant message only when the returned text is truthy
(non-`None` and non-empty). -/
def answer_and_commit (answerCall : Except Unit (List Chunk)) (s1 : ConvState) : StepResult :=
  match get_ai_response answerCall with
  | none => ⟨s1, [apiError], [s1.messages]⟩
  | some resp =>
    if resp = "" then ⟨s1, [], [s1.messages]⟩
    else ⟨{ s1 with messages := s1.messages ++ [⟨"assistant", resp⟩] }, [], [s1.messages]⟩

/-- The main chat-input handler body (src/app.py lines 162-187), run when
`planning_active` is false and the chat input is truthy: append the user
message; without an API key show an error; in the Planning-Intervention
condition route via `is_new_topic` on `messages[:-1]` and either enter
planning or answer directly; in the Standard condition answer directly. -/
def handle_user_input (api_key : Option String) (condition : Condition)
    (routerCall : Except Unit String) (answerCall : Except Unit (List Chunk))
    (s : ConvState) (prompt : String) : StepResult :=
  let s1 : ConvState := { s with messages := s.messages ++ [⟨"user", prompt⟩] }
  match api_key with
  | none => ⟨s1, ["Please enter API Key in sidebar."], []⟩
  | some _ =>
    match condition with
    | .planningIntervention =>
      if is_new_topic routerCall s1.messages.dropLast prompt then
        ⟨{ s1 with pending_question := prompt, planning_active := true }, [], []⟩
      else
        answer_and_commit answerCall s1
    | .standard => answer_and_commit answerCall s1

/-- `scope_str` (src/app.py line 137): comma-join of the selections, or
"General Overview" when nothing was selected. -/
def scope_string (scope_selection : List String) : String :=
  if scope_selection.isEmpty then "General Overview"
  else String.intercalate ", " scope_selection

/-- `sys_instruction` (src/app.py lines 138-142): the synthesized
planning instruction. -/
def sys_instruction (pending scope_str depth prior : String) : String :=
  "User Question: " ++ sq ++ pending ++ sq ++ ". Constraints -> Scope: " ++ scope_str ++
    ". Depth: " ++ depth ++ ". Confusion: " ++ prior ++ ". Answer strictly based on this plan."

/-- The planning-form submit handler (src/app.py lines 136-158): build the
instruction from the pending question and the plan; without an API key
show an error; otherwise send the history plus the instruction (the
instruction is not persisted) and, when the response is truthy, append
the assistant message and clear both planning flags. -/
def handle_plan_submit (api_key : Option String) (answerCall : Except Unit (List Chunk))
    (s : ConvState) (scope_selection : List String) (depth prior : String) : StepResult :=
  let instr := sys_instruction s.pending_question (scope_string scope_selection) depth prior
  match api_key with
  | none => ⟨s, ["Please enter API Key."], []⟩
  | some _ =>
    let msgs := s.messages ++ [⟨"user", instr⟩]
    match get_ai_response answerCall with
    | none => ⟨s, [apiError], [msgs]⟩
    | some resp =>
      if resp = "" then ⟨s, [], [msgs]⟩
      else ⟨⟨s.messages ++ [⟨"assistant", resp⟩], false, ""⟩, [], [msgs]⟩

/-- The spec invariant: `pending_question` is non-empty iff
`planning_active` is true. -/
def stateInv (s : ConvState) : Prop :=
  (s.pending_question ≠ "") ↔ s.planning_active = true

instance (s : ConvState) : Decidable (stateInv s) := by
  unfold stateInv
  infer_instance

/-- If a word is an infix of a mapped list, it is the image of an infix. -/
theorem exists_of_infix_map {α β : Type} {f : α → β} {t : List β} {s : List α}
    (h : t <:+: s.map f) : ∃ l : List α, l <:+: s ∧ l.map f = t := by
  obtain ⟨a, b, hab⟩ := h
  have hmap : s.map f = a ++ (t ++ b) := by rw [← hab, List.append_assoc]
  rw [List.map_eq_append_iff] at hmap
  obtain ⟨l₁, l₂, hs, _, h2⟩ := hmap
  rw [List.map_eq_append_iff] at h2
  obtain ⟨l₃, l₄, hl₂, h3, _⟩ := h2
  exact ⟨l₃, ⟨l₁, l₄, by rw [hs, hl₂, List.append_assoc]⟩, h3⟩

/-- A word is an infix of a mapped list iff it is the image of an infix. -/
theorem infix_map_iff {α β : Type} (f : α → β) (t : List β) (s : List α) :
    t <:+: s.map f ↔ ∃ l : List α, l <:+: s ∧ l.map f = t :=
  ⟨exists_of_infix_map, fun ⟨l, hl, hm⟩ => hm ▸ hl.map f⟩

/-- `toList` distributes over string append. -/
theorem toList_append (a b : String) : (a ++ b).toList = a.toList ++ b.toList := rfl

/-- A list is an infix of itself followed by anything. -/
theorem infix_self_append {α : Type} (t r : List α) : t <:+: t ++ r := ⟨[], r, rfl⟩

/-- An infix stays an infix after prepending on the left. -/
theorem infix_append_left {α : Type} (x : List α) {t l : List α} (h : t <:+: l) :
    t <:+: x ++ l := by
  obtain ⟨a, b, hab⟩ := h
  have hab2 : a ++ (t ++ b) = l := by rw [← List.append_assoc, hab]
  exact ⟨x ++ a, b, by rw [List.append_assoc, List.append_assoc, hab2]⟩

/-- The synthesized planning instruction contains the pending question,
the scope string, the depth choice and the confusion text. -/
theorem sys_instruction_contains (p sc d pr : String) :
    String.toList p <:+: (sys_instruction p sc d pr).toList ∧
    String.toList sc <:+: (sys_instruction p sc d pr).toList ∧
    String.toList d <:+: (sys_instruction p sc d pr).toList ∧
    String.toList pr <:+: (sys_instruction p sc d pr).toList := by
  refine ⟨?_, ?_, ?_, ?_⟩ <;>
    simp only [sys_instruction, toList_append, List.append_assoc]
  · exact infix_append_left _ (infix_append_left _ (infix_self_append _ _))
  · exact infix_append_left _ (infix_append_left _ (infix_append_left _ (infix_append_left _
      (infix_append_left _ (infix_self_append _ _)))))
  · exact infix_append_left _ (infix_append_left _ (infix_append_left _ (infix_append_left _
      (infix_append_left _ (infix_append_left _ (infix_append_left _
      (infix_self_append _ _)))))))
  · exact infix_append_left _ (infix_append_left _ (infix_append_left _ (infix_append_left _
      (infix_append_left _ (infix_append_left _ (infix_append_left _ (infix_append_left _
      (infix_append_left _ (infix_self_append _ _)))))))))

/-- `answer_and_commit` never changes the planning flags. -/
theorem answer_and_commit_flags (answerCall : Except Unit (List Chunk)) (s1 : ConvState) :
    (answer_and_commit answerCall s1).state.planning_active = s1.planning_active ∧
    (answer_and_commit answerCall s1).state.pending_question = s1.pending_question := by
  cases answerCall with
  | error e => exact ⟨rfl, rfl⟩
  | ok stream =>
    by_cases h : String.join (parse_groq_stream stream) = "" <;>
      simp [answer_and_commit, get_ai_response, h]

/-- The invariant only depends on the two planning flags. -/
theorem stateInv_of_flags {s t : ConvState}
    (hp : t.planning_active = s.planning_active)
    (hq : t.pending_question = s.pending_question) (hs : stateInv s) : stateInv t := by
  unfold stateInv at *
  rw [hp, hq]
  exact hs

/-- C1: with an empty history, `classify` returns NEW_TOPIC for every
prompt and every provider-call outcome (so the provider is never
consulted: the result does not depend on `routerCall`). -/
theorem classify_empty_history (routerCall : Except Unit String) (prompt : String) :
    classify routerCall [] prompt = RoutingDecision.NEW_TOPIC := rfl

/-- C2: if the provider call raises (any exception, caught by the bare
`except:`), `classify` returns NEW_TOPIC for every history and prompt. -/
theorem classify_provider_error (history : List Message) (prompt : String) :
    classify (Except.error ()) history prompt = RoutingDecision.NEW_TOPIC := by
  cases history <;> rfl

/-- C3: with a non-empty history, `classify` on a successful provider
response returns NEW_TOPIC exactly when the trimmed response text contains
the word "NEW" in any letter case, and CONTINUATION otherwise. -/
theorem classify_parses_case_insensitive (history : List Message) (prompt resp : String)
    (h : history ≠ []) :
    (classify (Except.ok resp) history prompt = RoutingDecision.NEW_TOPIC ↔
      ∃ l : List Char, l <:+: pyStrip resp.toList ∧ l.map Char.toUpper = String.toList "NEW") := by
  cases history with
  | nil => exact absurd rfl h
  | cons m rest =>
    have hstep : classify (Except.ok resp) (m :: rest) prompt = RoutingDecision.NEW_TOPIC ↔
        (String.toList "NEW") <:+: pyUpper (pyStrip resp.toList) := by
      by_cases hp : (String.toList "NEW") <:+: pyUpper (pyStrip resp.toList) <;>
        simp [classify, is_new_topic, hp]
    rw [hstep]
    have hup : pyUpper (pyStrip resp.toList) = (pyStrip resp.toList).map Char.toUpper := rfl
    rw [hup, infix_map_iff]

/-- C3 witness: concrete instance with history `[greeting]` and the
provider response " new ". -/
theorem classify_parses_case_insensitive_witness :
    [greeting] ≠ ([] : List Message) ∧
    (classify (Except.ok " new ") [greeting] "x" = RoutingDecision.NEW_TOPIC ↔
      ∃ l : List Char, l <:+: pyStrip (String.toList " new ") ∧
        l.map Char.toUpper = String.toList "NEW") :=
  ⟨by simp, classify_parses_case_insensitive [greeting] "x" " new " (by simp)⟩

/-- C6: the invariant "pending_question non-empty iff planning_active"
holds initially and is preserved by the main input handler (for the
non-empty prompts the chat input delivers), by the planning-form submit
handler, and by reset. -/
theorem pending_iff_planning_invariant :
    stateInv initialState ∧
    (∀ (api_key : Option String) (cond : Condition) (routerCall : Except Unit String)
       (answerCall : Except Unit (List Chunk)) (s : ConvState) (prompt : String),
      stateInv s → prompt ≠ "" →
      stateInv (handle_user_input api_key cond routerCall answerCall s prompt).state) ∧
    (∀ (api_key : Option String) (answerCall : Except Unit (List Chunk)) (s : ConvState)
       (scope_selection : List String) (depth prior : String),
      stateInv s →
      stateInv (handle_plan_submit api_key answerCall s scope_selection depth prior).state) ∧
    (∀ s : ConvState, stateInv (reset_chat s)) := by
  refine ⟨by decide, ?_, ?_, fun s => show stateInv initialState from by decide⟩
  · intro key cond rc ac s prompt hs hp
    cases key with
    | none => exact stateInv_of_flags rfl rfl hs
    | some k =>
      cases cond with
      | standard =>
        exact stateInv_of_flags (answer_and_commit_flags ac _).1
          (answer_and_commit_flags ac _).2 hs
      | planningIntervention =>
        simp only [handle_user_input]
        split
        · simp [stateInv, hp]
        · exact stateInv_of_flags (answer_and_commit_flags ac _).1
            (answer_and_commit_flags ac _).2 hs
  · intro key ac s scope depth prior hs
    cases key with
    | none => exact hs
    | some k =>
      cases ac with
      | error e => exact hs
      | ok stream =>
        by_cases h : String.join (parse_groq_stream stream) = ""
        · simpa [handle_plan_submit, get_ai_response, h] using hs
        · simp [handle_plan_submit, get_ai_response, h, stateInv]

/-- C6 witness: the invariant after one concrete main-handler step from
the initial state. -/
theorem pending_iff_planning_invariant_witness :
    stateInv (handle_user_input none Condition.standard (Except.error ())
      (Except.error ()) initialState "hi").state :=
  pending_iff_planning_invariant.2.1 none Condition.standard (Except.error ())
    (Except.error ()) initialState "hi" (by decide) (by decide)

/-- C8: with no API credential, the main handler records the user message,
shows an error, sends nothing to the provider and keeps both flags; the
planning-form submit handler shows an error and changes nothing at all. -/
theorem missing_credential_no_change :
    (∀ (cond : Condition) (routerCall : Except Unit String)
       (answerCall : Except Unit (List Chunk)) (s : ConvState) (prompt : String),
      handle_user_input none cond routerCall answerCall s prompt =
        ⟨⟨s.messages ++ [⟨"user", prompt⟩], s.planning_active, s.pending_question⟩,
          ["Please enter API Key in sidebar."], []⟩) ∧
    (∀ (answerCall : Except Unit (List Chunk)) (s : ConvState)
       (scope_selection : List String) (depth prior : String),
      handle_plan_submit none answerCall s scope_selection depth prior =
        ⟨s, ["Please enter API Key."], []⟩) :=
  ⟨fun _ _ _ _ _ => rfl, fun _ _ _ _ _ => rfl⟩

/-- C9: reset is idempotent, and one reset already yields the state with
the single greeting message and cleared flags. -/
theorem reset_idempotent (s : ConvState) :
    reset_chat (reset_chat s) = reset_chat s ∧
    reset_chat s = ⟨[greeting], false, ""⟩ :=
  ⟨rfl, rfl⟩

/-- C4 counterexample: a chunk whose first delta content is the empty
string passes the `is not None` check, so the parser yields an empty
fragment; the claim "never yields an empty fragment" is false. -/
theorem parse_stream_empty_fragment_counterexample :
    "" ∈ parse_groq_stream [Chunk.mk [Choice.mk (Delta.mk (some ""))]] := by decide

/-- C4 (amended): a chunk with no content delta (no choices, or `None`
content) contributes nothing; a chunk with a content delta (possibly the
empty string) contributes exactly that delta; and fragments appear in
stream order (the parser is a homomorphism on stream concatenation). -/
theorem parse_groq_stream_amended :
    (∀ c : Chunk, chunkDelta c = none → parse_groq_stream [c] = []) ∧
    (∀ (c : Chunk) (s : String), chunkDelta c = some s → parse_groq_stream [c] = [s]) ∧
    (∀ xs ys : List Chunk,
      parse_groq_stream (xs ++ ys) = parse_groq_stream xs ++ parse_groq_stream ys) := by
  refine ⟨?_, ?_, ?_⟩
  · intro c h
    simp [parse_groq_stream, h]
  · intro c s h
    simp [parse_groq_stream, h]
  · intro xs ys
    simp [parse_groq_stream]

/-- C4 witness: the chunk with no choices is skipped. -/
theorem parse_groq_stream_amended_witness :
    parse_groq_stream [Chunk.mk []] = [] :=
  parse_groq_stream_amended.1 (Chunk.mk []) rfl

/-- C7: when the streaming provider call raises during an answer-producing
transition (Standard condition, or Planning-Intervention routed to
CONTINUATION), the main handler keeps the user message, changes no flags,
appends no assistant message, and shows the API error; the planning-form
submit handler leaves the state entirely unchanged and shows the error. -/
theorem provider_error_no_commit :
    (∀ (key : String) (cond : Condition) (routerCall : Except Unit String)
       (s : ConvState) (prompt : String),
      (cond = Condition.standard ∨ is_new_topic routerCall s.messages prompt = false) →
      (handle_user_input (some key) cond routerCall (Except.error ()) s prompt).state =
          ⟨s.messages ++ [Message.mk "user" prompt], s.planning_active, s.pending_question⟩ ∧
        (handle_user_input (some key) cond routerCall (Except.error ()) s prompt).errors =
          [apiError]) ∧
    (∀ (key : String) (s : ConvState) (scope_selection : List String) (depth prior : String),
      (handle_plan_submit (some key) (Except.error ()) s scope_selection depth prior).state
          = s ∧
        (handle_plan_submit (some key) (Except.error ()) s scope_selection depth prior).errors
          = [apiError]) := by
  constructor
  · intro key cond rc s prompt hcond
    cases cond with
    | standard => exact ⟨rfl, rfl⟩
    | planningIntervention =>
      rcases hcond with h | hr
      · exact Condition.noConfusion h
      · constructor <;> simp [handle_user_input, hr, answer_and_commit, get_ai_response]
  · intro key s scope depth prior
    exact ⟨rfl, rfl⟩

/-- C7 witness: concrete provider error in the Standard condition. -/
theorem provider_error_no_commit_witness :
    (Condition.standard = Condition.standard ∨
      is_new_topic (Except.error ()) initialState.messages "hi" = false) ∧
    ((handle_user_input (some "k") Condition.standard (Except.error ()) (Except.error ())
        initialState "hi").state =
        ⟨initialState.messages ++ [Message.mk "user" "hi"], initialState.planning_active,
          initialState.pending_question⟩ ∧
      (handle_user_input (some "k") Condition.standard (Except.error ()) (Except.error ())
        initialState "hi").errors = [apiError]) :=
  ⟨Or.inl rfl, provider_error_no_commit.1 "k" Condition.standard (Except.error ())
    initialState "hi" (Or.inl rfl)⟩

/-- C10: when the streaming call succeeds but the concatenated output is
empty, the truthiness check treats it as failure: the main handler
appends no assistant message and changes no flags, and the planning-form
submit handler leaves the state unchanged (planning stays active with
its pending question). -/
theorem empty_response_no_commit (stream : List Chunk)
    (hempty : String.join (parse_groq_stream stream) = "") :
    (∀ (key : String) (cond : Condition) (routerCall : Except Unit String)
       (s : ConvState) (prompt : String),
      (cond = Condition.standard ∨ is_new_topic routerCall s.messages prompt = false) →
      (handle_user_input (some key) cond routerCall (Except.ok stream) s prompt).state =
        ⟨s.messages ++ [Message.mk "user" prompt], s.planning_active, s.pending_question⟩) ∧
    (∀ (key : String) (s : ConvState) (scope_selection : List String) (depth prior : String),
      (handle_plan_submit (some key) (Except.ok stream) s scope_selection depth prior).state
        = s) := by
  constructor
  · intro key cond rc s prompt hcond
    cases cond with
    | standard => simp [handle_user_input, answer_and_commit, get_ai_response, hempty]
    | planningIntervention =>
      rcases hcond with h | hr
      · exact Condition.noConfusion h
      · simp [handle_user_input, hr, answer_and_commit, get_ai_response, hempty]
  · intro key s scope depth prior
    simp [handle_plan_submit, get_ai_response, hempty]

/-- C10 witness: the empty stream joins to the empty string and the
planning-form submit handler then changes nothing. -/
theorem empty_response_no_commit_witness :
    String.join (parse_groq_stream []) = "" ∧
    (handle_plan_submit (some "k") (Except.ok []) initialState [] "d" "p").state
      = initialState :=
  ⟨rfl, (empty_response_no_commit [] rfl).2 "k" initialState [] "d" "p"⟩

/-- C5: in the Planning-Intervention condition, a user prompt routed as a
new topic moves the state to AwaitingPlan (planning active, pending
question = the prompt, the prompt already appended to history, nothing
sent to the provider); submitting the plan then sends exactly one message
list whose final synthesized instruction contains the pending question,
the scope string, the depth choice and the confusion text, and on a
successful non-empty response appends exactly one assistant message,
clears the pending question and deactivates planning. -/
theorem planning_intervention_flow (key : String) (routerCall : Except Unit String)
    (answerCall : Except Unit (List Chunk)) (stream : List Chunk)
    (s : ConvState) (prompt : String) (scope_selection : List String) (depth prior : String)
    (r1 r2 : StepResult)
    (hroute : is_new_topic routerCall s.messages prompt = true)
    (hresp : String.join (parse_groq_stream stream) ≠ "")
    (hr1 : handle_user_input (some key) Condition.planningIntervention routerCall answerCall
      s prompt = r1)
    (hr2 : handle_plan_submit (some key) (Except.ok stream) r1.state scope_selection depth prior
      = r2) :
    r1.state = ⟨s.messages ++ [Message.mk "user" prompt], true, prompt⟩ ∧
    r1.sent = [] ∧
    (∃ instr : String,
      r2.sent = [r1.state.messages ++ [Message.mk "user" instr]] ∧
      String.toList prompt <:+: instr.toList ∧
      String.toList (scope_string scope_selection) <:+: instr.toList ∧
      String.toList depth <:+: instr.toList ∧
      String.toList prior <:+: instr.toList) ∧
    r2.state.messages = r1.state.messages ++
      [Message.mk "assistant" (String.join (parse_groq_stream stream))] ∧
    r2.state.planning_active = false ∧
    r2.state.pending_question = "" := by
  have e1 : handle_user_input (some key) Condition.planningIntervention routerCall answerCall
      s prompt =
      ⟨⟨s.messages ++ [Message.mk "user" prompt], true, prompt⟩, [], []⟩ := by
    simp [handle_user_input, hroute]
  subst hr2
  subst hr1
  rw [e1]
  refine ⟨rfl, rfl,
    ⟨sys_instruction prompt (scope_string scope_selection) depth prior, ?_,
      (sys_instruction_contains prompt (scope_string scope_selection) depth prior).1,
      (sys_instruction_contains prompt (scope_string scope_selection) depth prior).2.1,
      (sys_instruction_contains prompt (scope_string scope_selection) depth prior).2.2.1,
      (sys_instruction_contains prompt (scope_string scope_selection) depth prior).2.2.2⟩,
    ?_, ?_, ?_⟩ <;>
  simp [handle_plan_submit, get_ai_response, hresp]

/-- C5 witness: the concrete end-to-end scenario of the spec, with the
router call failing over to NEW (any outcome with `is_new_topic = true`
works) and a one-chunk answer stream. -/
theorem planning_intervention_flow_witness :
    is_new_topic (Except.error ()) initialState.messages "What is Speciation?" = true ∧
    String.join (parse_groq_stream [Chunk.mk [Choice.mk (Delta.mk (some "Speciation is."))]])
      ≠ "" ∧
    ((handle_user_input (some "k") Condition.planningIntervention (Except.error ())
        (Except.error ()) initialState "What is Speciation?").state =
      ⟨initialState.messages ++ [Message.mk "user" "What is Speciation?"], true,
        "What is Speciation?"⟩ ∧
    (handle_user_input (some "k") Condition.planningIntervention (Except.error ())
        (Except.error ()) initialState "What is Speciation?").sent = [] ∧
    (∃ instr : String,
      (handle_plan_submit (some "k")
          (Except.ok [Chunk.mk [Choice.mk (Delta.mk (some "Speciation is."))]])
          (handle_user_input (some "k") Condition.planningIntervention (Except.error ())
            (Except.error ()) initialState "What is Speciation?").state
          ["Core Definitions"] "Quick Summary" "").sent =
        [(handle_user_input (some "k") Condition.planningIntervention (Except.error ())
            (Except.error ()) initialState "What is Speciation?").state.messages ++
          [Message.mk "user" instr]] ∧
      String.toList "What is Speciation?" <:+: instr.toList ∧
      String.toList (scope_string ["Core Definitions"]) <:+: instr.toList ∧
      String.toList "Quick Summary" <:+: instr.toList ∧
      String.toList "" <:+: instr.toList) ∧
    (handle_plan_submit (some "k")
        (Except.ok [Chunk.mk [Choice.mk (Delta.mk (some "Speciation is."))]])
        (handle_user_input (some "k") Condition.planningIntervention (Except.error ())
          (Except.error ()) initialState "What is Speciation?").state
        ["Core Definitions"] "Quick Summary" "").state.messages =
      (handle_user_input (some "k") Condition.planningIntervention (Except.error ())
        (Except.error ()) initialState "What is Speciation?").state.messages ++
        [Message.mk "assistant" (String.join (parse_groq_stream
          [Chunk.mk [Choice.mk (Delta.mk (some "Speciation is."))]]))] ∧
    (handle_plan_submit (some "k")
        (Except.ok [Chunk.mk [Choice.mk (Delta.mk (some "Speciation is."))]])
        (handle_user_input (some "k") Condition.planningIntervention (Except.error ())
          (Except.error ()) initialState "What is Speciation?").state
        ["Core Definitions"] "Quick Summary" "").state.planning_active = false ∧
    (handle_plan_submit (some "k")
        (Except.ok [Chunk.mk [Choice.mk (Delta.mk (some "Speciation is."))]])
        (handle_user_input (some "k") Condition.planningIntervention (Except.error ())
          (Except.error ()) initialState "What is Speciation?").state
        ["Core Definitions"] "Quick Summary" "").state.pending_question = "") :=
  ⟨by decide, by decide,
    planning_intervention_flow "k" (Except.error ()) (Except.error ())
      [Chunk.mk [Choice.mk (Delta.mk (some "Speciation is."))]]
      initialState "What is Speciation?" ["Core Definitions"] "Quick Summary" "" _ _
      (by decide) (by decide) rfl rfl⟩

end AITutorStudy
